import Mathlib

/-!
Shallow embedding of the MCP tool handlers in src (a TypeScript worker
exposing Click2mail, EasyPost and Google address-validation APIs as tools).

JSON values are modelled by an inductive type; the JavaScript distinction
between an absent field (undefined) and a null field is kept by returning
`Option Json` from field access (`none` = undefined, `some .null` = null).
Each tool handler is a pure function from its credentials/inputs and the
sequence of network outcomes to the tool result paired with the list of
HTTP requests it issued, in order.
-/

/-- A JSON value as produced by `response.json()`. Numbers are modelled as
integers; no claim involves fractional values. -/
inductive Json where
  | null
  | bool (b : Bool)
  | num (n : Int)
  | str (s : String)
  | arr (elems : List Json)
  | obj (fields : List (String × Json))

/-- Property access `v.k` on a JSON value: `none` models JavaScript
undefined (absent field, or access on a non-object primitive). -/
def Json.getField : Json → String → Option Json
  | .obj fields, k => fields.lookup k
  | _, _ => none

/-- Optional chaining `v?.k`: undefined propagates, and access on null
or undefined yields undefined instead of throwing. -/
def optField : Option Json → String → Option Json
  | some j, k => j.getField k
  | none, _ => none

/-- JavaScript truthiness of a possibly-undefined value: undefined, null,
false, 0 and the empty string are falsy. -/
def jsTruthy : Option Json → Bool
  | none => false
  | some .null => false
  | some (.bool b) => b
  | some (.num n) => n != 0
  | some (.str s) => s != ""
  | some (.arr _) => true
  | some (.obj _) => true

/-- Template-literal interpolation of a possibly-undefined value, as in
the backtick strings of the source. -/
def jsDisplay : Option Json → String
  | none => "undefined"
  | some .null => "null"
  | some (.bool b) => if b then "true" else "false"
  | some (.num n) => toString n
  | some (.str s) => s
  | some (.arr _) => ""
  | some (.obj _) => "[object Object]"

/-- Strict comparison `v === false` on a possibly-undefined value: true
only for the boolean literal false, never for undefined/null/0. -/
def isFalseLit : Option Json → Bool
  | some (.bool false) => true
  | _ => false

/-- Default a possibly-undefined value, used after a truthiness check has
established the value is present. -/
def jsToVal (o : Option Json) : Json := o.getD .null

/-- Truthiness test on an optional credential string, as in the source
checks `if (!key)`: absent or empty means not configured. -/
def jsStrFalsy : Option String → Bool
  | none => true
  | some s => s == ""

/-- An HTTP response as consumed by the handlers: `ok`, `status`, the
parsed JSON body (`response.json()`), and the raw text body used in
error messages (`response.text()`). -/
structure HttpResponse where
  ok : Bool
  status : Nat
  jsonBody : Json
  textBody : String

/-- Result of one `fetch`: either the promise rejects (transport error
with a message) or a response arrives. -/
inductive FetchOutcome where
  | throw (msg : String)
  | respond (r : HttpResponse)

/-- The body of an outgoing request. `formB` holds the URLSearchParams
entries before serialization; `multipartB` holds the FormData entries. -/
inductive RequestBody where
  | empty
  | jsonB (j : Json)
  | formB (fields : List (String × String))
  | xmlB (s : String)
  | multipartB (fields : List (String × String))

/-- An outgoing HTTP request issued by a tool handler. -/
structure Request where
  url : String
  method : String
  body : RequestBody

/-- The worker environment bindings read by the handlers. -/
structure Env where
  googleApiKey : Option String
  easypostApiKey : Option String
  easypostCarrierAccountId : Option String

/-- The structured validation result built by validate_address. Each
entry of `messages` is the `text` property of one validation message
(`none` when that property is absent). -/
structure AddressValidationResult where
  is_valid : Bool
  corrected_address : Json
  original_address : Json
  messages : List (Option Json)

/-- What a tool call produces: a text content block, a json content
block (validate_address success), or an exception escaping the handler. -/
inductive ToolResult where
  | text (s : String)
  | jsonResult (v : AddressValidationResult)
  | thrown (msg : String)

/-- The text of a text result, `none` for json results and faults. -/
def ToolResult.textOf : ToolResult → Option String
  | .text s => some s
  | _ => none

/-- The network outcome of the i-th fetch of a handler invocation; an
exhausted trace behaves as a transport failure. -/
def fetchAt (net : List FetchOutcome) (i : Nat) : FetchOutcome :=
  net.getD i (.throw "fetch failed")

/-- getClick2mailBasicAuthHeader from the source: throws when the
pre-encoded credential string is falsy, else returns the headers. -/
def getClick2mailBasicAuthHeader (base64Credentials : String) :
    Except String (List (String × String)) :=
  if base64Credentials == "" then
    .error "Click2mail basic auth credentials are required."
  else
    .ok [("Authorization", "Basic " ++ base64Credentials),
         ("Accept", "application/json")]

/-- getEasyPostAuthHeader from the source: throws when the key is
missing from the environment, else returns the bearer headers. -/
def getEasyPostAuthHeader (env : Env) : Except String (List (String × String)) :=
  if jsStrFalsy env.easypostApiKey then
    .error "Missing EasyPost API key in environment"
  else
    .ok [("Authorization", "Bearer " ++ env.easypostApiKey.getD ""),
         ("Content-Type", "application/json")]

/-- The message the Click2mail tools return when the agent has no basic
auth header value. -/
def c2mMissingText : String := "Click2mail basic auth credentials are not available."

/-- check_balance: one authenticated GET against the credit endpoint;
reports `balance` when it is not strictly undefined. -/
def check_balance (c2mAuth : Option String) (net : List FetchOutcome) :
    ToolResult × List Request :=
  if jsStrFalsy c2mAuth then (.text c2mMissingText, [])
  else
    match getClick2mailBasicAuthHeader (c2mAuth.getD "") with
    | .error msg => (.thrown msg, [])
    | .ok _headers =>
      let req : Request :=
        { url := "https://stage-rest.click2mail.com/molpro/credit",
          method := "GET", body := .empty }
      match fetchAt net 0 with
      | .throw msg => (.text ("Error checking balance: " ++ msg), [req])
      | .respond r =>
        if r.ok then
          match r.jsonBody.getField "balance" with
          | some balance =>
              (.text ("Available balance: " ++ jsDisplay (some balance)), [req])
          | none =>
              (.text "Balance information not found in response.", [req])
        else
          (.text ("Error checking balance: HTTP error! status: " ++
            toString r.status ++ ", body: " ++ r.textBody), [req])

/-- job_status: one authenticated GET against the job endpoint; reports
`description` when truthy, else a fixed not-found text. -/
def job_status (c2mAuth : Option String) (jobid : String)
    (net : List FetchOutcome) : ToolResult × List Request :=
  if jsStrFalsy c2mAuth then (.text c2mMissingText, [])
  else
    match getClick2mailBasicAuthHeader (c2mAuth.getD "") with
    | .error msg => (.thrown msg, [])
    | .ok _headers =>
      let req : Request :=
        { url := "https://stage-rest.click2mail.com/molpro/jobs/" ++ jobid,
          method := "GET", body := .empty }
      match fetchAt net 0 with
      | .throw msg => (.text ("Error getting job status: " ++ msg), [req])
      | .respond r =>
        if r.ok then
          let description := r.jsonBody.getField "description"
          if jsTruthy description then
            (.text (jsDisplay description), [req])
          else
            (.text "Job description not found in response.", [req])
        else
          (.text ("Error getting job status: HTTP error! status: " ++
            toString r.status ++ ", body: " ++ r.textBody), [req])

/-- view_proof: one authenticated POST against the proof endpoint;
reports `statusUrl` when truthy, else a fixed not-found text. -/
def view_proof (c2mAuth : Option String) (jobid : String)
    (net : List FetchOutcome) : ToolResult × List Request :=
  if jsStrFalsy c2mAuth then (.text c2mMissingText, [])
  else
    match getClick2mailBasicAuthHeader (c2mAuth.getD "") with
    | .error msg => (.thrown msg, [])
    | .ok _headers =>
      let req : Request :=
        { url := "https://stage-rest.click2mail.com/molpro/jobs/" ++ jobid ++ "/proof",
          method := "POST", body := .empty }
      match fetchAt net 0 with
      | .throw msg => (.text ("Error viewing proof: " ++ msg), [req])
      | .respond r =>
        if r.ok then
          let statusUrl := r.jsonBody.getField "statusUrl"
          if jsTruthy statusUrl then
            (.text (jsDisplay statusUrl), [req])
          else
            (.text "Status URL not found in response.", [req])
        else
          (.text ("Error viewing proof: HTTP error! status: " ++
            toString r.status ++ ", body: " ++ r.textBody), [req])

/-- The flat input schema of create_shipping_label. -/
structure ShippingLabelInput where
  to_address_name : String
  to_address_street1 : String
  to_address_city : String
  to_address_state : String
  to_address_zip : String
  to_address_country : String
  from_address_name : String
  from_address_street1 : String
  from_address_city : String
  from_address_state : String
  from_address_zip : String
  from_address_country : String
  parcel_weight : String

/-- The shipment payload built by create_shipping_label. The parcel
weight is carried as its source text (the handler applies parseFloat;
floating-point parsing is not modelled and no claim concerns it). The
carrier_accounts field is present only when the account id is truthy,
matching the conditional that yields undefined — dropped by
JSON.stringify — otherwise. -/
def shipmentPayload (env : Env) (input : ShippingLabelInput) : Json :=
  let toAddr : Json := .obj
    [("name", .str input.to_address_name),
     ("street1", .str input.to_address_street1),
     ("city", .str input.to_address_city),
     ("state", .str input.to_address_state),
     ("zip", .str input.to_address_zip),
     ("country", .str input.to_address_country)]
  let fromAddr : Json := .obj
    [("name", .str input.from_address_name),
     ("street1", .str input.from_address_street1),
     ("city", .str input.from_address_city),
     ("state", .str input.from_address_state),
     ("zip", .str input.from_address_zip),
     ("country", .str input.from_address_country)]
  let base : List (String × Json) :=
    [("to_address", toAddr),
     ("from_address", fromAddr),
     ("parcel", .obj [("weight", .str input.parcel_weight)]),
     ("service", .str "Priority")]
  let fields :=
    if jsStrFalsy env.easypostCarrierAccountId then base
    else base ++ [("carrier_accounts", .arr [.str (env.easypostCarrierAccountId.getD "")])]
  .obj [("shipment", .obj fields)]

/-- create_shipping_label: the auth header is computed before the try
block, so a missing EasyPost key escapes as a thrown fault; otherwise
one POST is issued and the label URL is reported when truthy. -/
def create_shipping_label (env : Env) (input : ShippingLabelInput)
    (net : List FetchOutcome) : ToolResult × List Request :=
  match getEasyPostAuthHeader env with
  | .error msg => (.thrown msg, [])
  | .ok _headers =>
    let req : Request :=
      { url := "https://api.easypost.com/v2/shipments", method := "POST",
        body := .jsonB (shipmentPayload env input) }
    match fetchAt net 0 with
    | .throw msg => (.text ("Error creating shipping label: " ++ msg), [req])
    | .respond r =>
      if r.ok then
        let labelUrl := optField (r.jsonBody.getField "postage_label") "label_url"
        if jsTruthy labelUrl then
          (.text (jsDisplay labelUrl), [req])
        else
          (.text "Label URL not found in response.", [req])
      else
        (.text ("Error creating shipping label: HTTP error! status: " ++
          toString r.status ++ ", body: " ++ r.textBody), [req])

/-- The input schema of validate_address (region_code defaults to US at
the schema layer; handlers receive it already defaulted). -/
structure ValidateAddressInput where
  address_lines : String
  locality : String
  postal_code : String
  region_code : String

/-- The address substructure of the validation request payload. -/
def validationAddressJson (input : ValidateAddressInput) : Json :=
  .obj [("addressLines", .arr [.str input.address_lines]),
        ("locality", .str input.locality),
        ("postalCode", .str input.postal_code),
        ("regionCode", .str input.region_code)]

/-- Evaluation of `msg.text` for one element of validationMessages:
property access on null (or undefined is impossible here) throws a
TypeError; on any other value it yields the field or undefined. -/
def msgText : Json → Except String (Option Json)
  | .null => .error "Cannot read properties of null (reading 'text')"
  | j => .ok (j.getField "text")

/-- `.map(msg => msg.text)` over the elements, propagating a TypeError
thrown by any element. -/
def mapMessages : List Json → Except String (List (Option Json))
  | [] => .ok []
  | m :: ms => do
      let t ← msgText m
      let ts ← mapMessages ms
      pure (t :: ts)

/-- `data?.result?.validationMessages?.map(msg => msg.text) || []`:
undefined or null short-circuits to undefined and the disjunction
yields []; calling .map on a non-array value throws a TypeError. -/
def extractMessages : Option Json → Except String (List (Option Json))
  | none => .ok []
  | some .null => .ok []
  | some (.arr xs) => mapMessages xs
  | some _ => .error "data?.result?.validationMessages?.map is not a function"

/-- validate_address: short-circuits on a missing Google key, issues one
POST, and maps the verdict with strict `=== false` comparisons. -/
def validate_address (env : Env) (input : ValidateAddressInput)
    (net : List FetchOutcome) : ToolResult × List Request :=
  if jsStrFalsy env.googleApiKey then
    (.text "Google API Key for address validation is not configured.", [])
  else
    let url := "https://addressvalidation.googleapis.com/v1:validateAddress?key=" ++
      env.googleApiKey.getD ""
    let addressJson := validationAddressJson input
    let payload : Json := .obj [("address", addressJson), ("enableUspsCass", .bool true)]
    let req : Request := { url := url, method := "POST", body := .jsonB payload }
    match fetchAt net 0 with
    | .throw msg => (.text ("Error validating address: " ++ msg), [req])
    | .respond r =>
      if r.ok then
        let verdict := optField (r.jsonBody.getField "result") "verdict"
        let is_valid := isFalseLit (optField verdict "hasUnconfirmedComponents") &&
          isFalseLit (optField verdict "hasInferredComponents")
        let corrected := optField (r.jsonBody.getField "result") "address"
        match extractMessages (optField (r.jsonBody.getField "result") "validationMessages") with
        | .error msg => (.text ("Error validating address: " ++ msg), [req])
        | .ok messages =>
          (.jsonResult
            { is_valid := is_valid,
              corrected_address := if jsTruthy corrected then jsToVal corrected else .obj [],
              original_address := addressJson,
              messages := messages }, [req])
      else
        (.text ("Error validating address: Address validation failed: HTTP error! status: " ++
          toString r.status ++ ", body: " ++ r.textBody), [req])

/-- The input schema of send_letter (region_code defaults to US at the
schema layer). -/
structure SendLetterToolInput where
  pdf_file : String
  letter_type : String
  name : String
  address_lines : String
  locality : String
  postal_code : String
  region_code : String

/-- One address block of the address-list XML payload. The source
interpolates these six values into a single template literal; this
record exposes the interpolation slots, and rendering the singleton
list below reproduces the template character for character. -/
structure XmlAddress where
  firstname : String
  lastname : String
  address1 : String
  city : String
  state : String
  postalcode : String

/-- The address element of the template, with its exact indentation. -/
def renderXmlAddress (a : XmlAddress) : String :=
  "        <address>\n            <Firstname>" ++ a.firstname ++
  "</Firstname>\n            <Lastname>" ++ a.lastname ++
  "</Lastname>\n            <Address1>" ++ a.address1 ++
  "</Address1>\n            <City>" ++ a.city ++
  "</City>\n            <State>" ++ a.state ++
  "</State>\n            <Postalcode>" ++ a.postalcode ++
  "</Postalcode>\n        </address>"

/-- The fixed head of the address-list XML template. -/
def xmlListHead : String :=
  "<?xml version=\"1.0\" encoding=\"UTF-8\"?>\n<addressList>\n    <addressMappingId>1</addressMappingId>\n    <addresses>\n"

/-- The fixed tail of the address-list XML template. -/
def xmlListTail : String := "\n    </addresses>\n</addressList>"

/-- The complete address-list payload for a list of address blocks. -/
def renderAddressList (entries : List XmlAddress) : String :=
  xmlListHead ++ String.intercalate "\n" (entries.map renderXmlAddress) ++ xmlListTail

/-- The address entries send_letter puts in its step-2 payload: a single
block carrying the caller name twice (Firstname and Lastname), the
address line, the locality as City, the region code as State and the
postal code. -/
def sendLetterAddressList (input : SendLetterToolInput) : List XmlAddress :=
  [{ firstname := input.name, lastname := input.name,
     address1 := input.address_lines, city := input.locality,
     state := input.region_code, postalcode := input.postal_code }]

/-- The Click2mail REST base URL used by send_letter. -/
def molproBaseUrl : String := "https://stage-rest.click2mail.com/molpro/"

/-- Step 1 request: the multipart document upload. The file part itself
is commented out in the source; only the three metadata entries are
appended to the FormData. -/
def documentUploadRequest (input : SendLetterToolInput) : Request :=
  { url := molproBaseUrl ++ "documents", method := "POST",
    body := .multipartB
      [("documentFormat", "pdf"),
       ("documentClass", input.letter_type),
       ("documentName", "uploaded_letter")] }

/-- Step 2 request: the address-list XML POST. -/
def addressListRequest (input : SendLetterToolInput) : Request :=
  { url := molproBaseUrl ++ "addressLists", method := "POST",
    body := .xmlB (renderAddressList (sendLetterAddressList input)) }

/-- Step 3 form entries, in the order the source appends them: the
document class from the caller, seven hardcoded production constants,
then the two identifiers from steps 1 and 2 (stringified as
URLSearchParams does). -/
def jobFormFields (input : SendLetterToolInput) (docId listId : Json) :
    List (String × String) :=
  [("documentClass", input.letter_type),
   ("layout", "Address on First Page"),
   ("productionTime", "Next Day"),
   ("envelope", "Best Fit"),
   ("color", "Full color"),
   ("paperType", "White 24#"),
   ("printOption", "Printing One side"),
   ("mailClass", "First class"),
   ("documentId", jsDisplay (some docId)),
   ("addressId", jsDisplay (some listId))]

/-- Step 3 request: the form-encoded job creation POST. -/
def jobRequest (input : SendLetterToolInput) (docId listId : Json) : Request :=
  { url := molproBaseUrl ++ "jobs", method := "POST",
    body := .formB (jobFormFields input docId listId) }

/-- Step 4 request: the form-encoded submit POST on the job. -/
def submitRequest (jobId : Json) : Request :=
  { url := molproBaseUrl ++ "jobs/" ++ jsDisplay (some jobId) ++ "/submit",
    method := "POST", body := .formB [("billingType", "User Credit")] }

/-- send_letter: the four-step pipeline. Each step consumes the next
network outcome; a non-ok status throws a step-labelled error that the
surrounding catch turns into one text, and a falsy extracted id returns
its own text; either way no later request is issued. -/
def send_letter (c2mAuth : Option String) (input : SendLetterToolInput)
    (net : List FetchOutcome) : ToolResult × List Request :=
  if jsStrFalsy c2mAuth then (.text c2mMissingText, [])
  else
    match getClick2mailBasicAuthHeader (c2mAuth.getD "") with
    | .error msg => (.thrown msg, [])
    | .ok _headers =>
      let req1 := documentUploadRequest input
      match fetchAt net 0 with
      | .throw msg => (.text ("Error sending letter: " ++ msg), [req1])
      | .respond docResponse =>
        if docResponse.ok then
          let docIdOpt := docResponse.jsonBody.getField "id"
          if jsTruthy docIdOpt then
            let docId := jsToVal docIdOpt
            let req2 := addressListRequest input
            match fetchAt net 1 with
            | .throw msg => (.text ("Error sending letter: " ++ msg), [req1, req2])
            | .respond alResponse =>
              if alResponse.ok then
                let listIdOpt := alResponse.jsonBody.getField "id"
                if jsTruthy listIdOpt then
                  let listId := jsToVal listIdOpt
                  let req3 := jobRequest input docId listId
                  match fetchAt net 2 with
                  | .throw msg =>
                      (.text ("Error sending letter: " ++ msg), [req1, req2, req3])
                  | .respond jobResponse =>
                    if jobResponse.ok then
                      let jobIdOpt := jobResponse.jsonBody.getField "id"
                      if jsTruthy jobIdOpt then
                        let jobId := jsToVal jobIdOpt
                        let req4 := submitRequest jobId
                        match fetchAt net 3 with
                        | .throw msg =>
                            (.text ("Error sending letter: " ++ msg),
                             [req1, req2, req3, req4])
                        | .respond submitResponse =>
                          if submitResponse.ok then
                            (.text ("Letter (" ++ input.letter_type ++
                              ") sent. Your job id is " ++ jsDisplay (some jobId)),
                             [req1, req2, req3, req4])
                          else
                            (.text ("Error sending letter: Job submission failed: HTTP error! status: " ++
                              toString submitResponse.status ++ ", body: " ++
                              submitResponse.textBody),
                             [req1, req2, req3, req4])
                      else
                        (.text "Failed to get job ID after creation.",
                         [req1, req2, req3])
                    else
                      (.text ("Error sending letter: Job creation failed: HTTP error! status: " ++
                        toString jobResponse.status ++ ", body: " ++ jobResponse.textBody),
                       [req1, req2, req3])
                else
                  (.text "Failed to get address list ID after creation.", [req1, req2])
              else
                (.text ("Error sending letter: Address list creation failed: HTTP error! status: " ++
                  toString alResponse.status ++ ", body: " ++ alResponse.textBody),
                 [req1, req2])
          else
            (.text "Failed to get document ID after upload response.", [req1])
        else
          (.text ("Error sending letter: Document upload failed: HTTP error! status: " ++
            toString docResponse.status ++ ", body: " ++ docResponse.textBody), [req1])

/-- The nine-entry field list the specification describes for the
job-creation payload: the seven fixed production constants together
with the document id and address-list id. Written from the
specification text, to be compared with `jobFormFields` built from the
source. -/
def specJobFields (docId listId : String) : List (String × String) :=
  [("layout", "Address on First Page"),
   ("productionTime", "Next Day"),
   ("envelope", "Best Fit"),
   ("color", "Full color"),
   ("paperType", "White 24#"),
   ("printOption", "Printing One side"),
   ("mailClass", "First class"),
   ("documentId", docId),
   ("addressId", listId)]

/-- An environment with no credential configured. -/
def envNoKeys : Env :=
  { googleApiKey := none, easypostApiKey := none, easypostCarrierAccountId := none }

/-- An environment with only the EasyPost key configured. -/
def envEp : Env :=
  { googleApiKey := none, easypostApiKey := some "ezkey",
    easypostCarrierAccountId := none }

/-- An environment with only the Google key configured. -/
def envG : Env :=
  { googleApiKey := some "gkey", easypostApiKey := none,
    easypostCarrierAccountId := none }

/-- A concrete send_letter input used to evaluate the pipeline. -/
def sampleLetterInput : SendLetterToolInput :=
  { pdf_file := "letter.pdf", letter_type := "Letter 8.5 x 11", name := "Ada",
    address_lines := "1 Main St", locality := "Springfield",
    postal_code := "12345", region_code := "US" }

/-- A concrete create_shipping_label input. -/
def sampleShipInput : ShippingLabelInput :=
  { to_address_name := "Ada", to_address_street1 := "1 Main St",
    to_address_city := "Springfield", to_address_state := "IL",
    to_address_zip := "12345", to_address_country := "US",
    from_address_name := "Bob", from_address_street1 := "2 Oak Ave",
    from_address_city := "Shelbyville", from_address_state := "IL",
    from_address_zip := "54321", from_address_country := "US",
    parcel_weight := "1.5" }

/-- A concrete validate_address input. -/
def sampleValidateInput : ValidateAddressInput :=
  { address_lines := "1 Main St", locality := "Springfield",
    postal_code := "12345", region_code := "US" }

/-- A successful response whose body is an object carrying only an id. -/
def okIdResponse (id : String) : HttpResponse :=
  { ok := true, status := 200, jsonBody := .obj [("id", .str id)], textBody := "" }

/-- A successful empty-bodied response, as from the submit step. -/
def okPlainResponse : HttpResponse :=
  { ok := true, status := 200, jsonBody := .null, textBody := "submitted" }

/-- A placeholder request used as the default of list indexing. -/
def dummyRequest : Request := { url := "", method := "", body := .empty }

/-- The form entries of a request body, when it is form-encoded. -/
def RequestBody.formOf : RequestBody → Option (List (String × String))
  | .formB fields => some fields
  | _ => none

lemma isFalseLit_iff (o : Option Json) :
    isFalseLit o = true ↔ o = some (.bool false) := by
  rcases o with _ | j
  · simp [isFalseLit]
  · rcases j with _ | b | n | s | xs | fs
    · simp [isFalseLit]
    · cases b <;> simp [isFalseLit]
    · simp [isFalseLit]
    · simp [isFalseLit]
    · simp [isFalseLit]
    · simp [isFalseLit]

/-- C1 (counterexample): with no EasyPost key configured,
create_shipping_label does not return a configuration-error text — the
missing-key check throws before the try block, so the fault escapes the
handler (while, as the claim says, no network request is issued). -/
theorem create_shipping_label_missing_key_throws :
    (create_shipping_label envNoKeys sampleShipInput []).1 =
      .thrown "Missing EasyPost API key in environment" ∧
    ToolResult.textOf (create_shipping_label envNoKeys sampleShipInput []).1 = none ∧
    (create_shipping_label envNoKeys sampleShipInput []).2 = [] :=
  ⟨rfl, rfl, rfl⟩

/-- C1 (amended): every credential-gated tool short-circuits before any
network request when its credential is not configured; view_proof,
job_status, check_balance, send_letter and validate_address return a
configuration-error text, while create_shipping_label instead raises a
missing-key fault. -/
theorem missing_credential_short_circuit
    (c2m : Option String) (hc : jsStrFalsy c2m = true)
    (env : Env) (hg : jsStrFalsy env.googleApiKey = true)
    (he : jsStrFalsy env.easypostApiKey = true)
    (jobid : String) (sli : SendLetterToolInput) (cli : ShippingLabelInput)
    (vai : ValidateAddressInput) (net : List FetchOutcome) :
    view_proof c2m jobid net = (.text c2mMissingText, []) ∧
    job_status c2m jobid net = (.text c2mMissingText, []) ∧
    check_balance c2m net = (.text c2mMissingText, []) ∧
    send_letter c2m sli net = (.text c2mMissingText, []) ∧
    validate_address env vai net =
      (.text "Google API Key for address validation is not configured.", []) ∧
    create_shipping_label env cli net =
      (.thrown "Missing EasyPost API key in environment", []) := by
  refine ⟨?_, ?_, ?_, ?_, ?_, ?_⟩
  · simp [view_proof, hc]
  · simp [job_status, hc]
  · simp [check_balance, hc]
  · simp [send_letter, hc]
  · simp [validate_address, hg]
  · simp [create_shipping_label, getEasyPostAuthHeader, he]

/-- C1 (witness): the short-circuit evaluated with every credential
absent. -/
theorem missing_credential_short_circuit_witness :
    view_proof none "J1" [] = (.text c2mMissingText, []) ∧
    job_status none "J1" [] = (.text c2mMissingText, []) ∧
    check_balance none [] = (.text c2mMissingText, []) ∧
    send_letter none sampleLetterInput [] = (.text c2mMissingText, []) ∧
    validate_address envNoKeys sampleValidateInput [] =
      (.text "Google API Key for address validation is not configured.", []) ∧
    create_shipping_label envNoKeys sampleShipInput [] =
      (.thrown "Missing EasyPost API key in environment", []) :=
  missing_credential_short_circuit none rfl envNoKeys rfl rfl "J1"
    sampleLetterInput sampleShipInput sampleValidateInput []

/-- C5: on a successful response, a balance of 0 is reported as 0, any
value strictly present is reported interpolated, and only an entirely
absent balance field produces the not-found text. -/
theorem check_balance_zero_reported
    (auth : String) (ha : (auth == "") = false)
    (r : HttpResponse) (hok : r.ok = true) :
    (r.jsonBody.getField "balance" = some (.num 0) →
       (check_balance (some auth) [.respond r]).1 = .text "Available balance: 0") ∧
    (r.jsonBody.getField "balance" = none →
       (check_balance (some auth) [.respond r]).1 =
         .text "Balance information not found in response.") ∧
    (∀ b, r.jsonBody.getField "balance" = some b →
       (check_balance (some auth) [.respond r]).1 =
         .text ("Available balance: " ++ jsDisplay (some b))) := by
  refine ⟨?_, ?_, ?_⟩
  · intro hb
    simp [check_balance, jsStrFalsy, ha, getClick2mailBasicAuthHeader,
      fetchAt, hok, hb, jsDisplay]
    decide
  · intro hb
    simp [check_balance, jsStrFalsy, ha, getClick2mailBasicAuthHeader,
      fetchAt, hok, hb]
  · intro b hb
    simp [check_balance, jsStrFalsy, ha, getClick2mailBasicAuthHeader,
      fetchAt, hok, hb]

/-- C5 (witness): the zero-balance case evaluated concretely. -/
theorem check_balance_zero_reported_witness :
    (check_balance (some "c2mcred")
      [.respond { ok := true, status := 200,
                  jsonBody := .obj [("balance", .num 0)], textBody := "" }]).1 =
      .text "Available balance: 0" :=
  (check_balance_zero_reported "c2mcred" rfl
    { ok := true, status := 200, jsonBody := .obj [("balance", .num 0)],
      textBody := "" } rfl).1 rfl

/-- C10: on a successful response whose balance field is null, the tool
reports the interpolated text Available balance: null — the strict
undefined comparison treats only an absent field as missing. -/
theorem check_balance_null_reported
    (auth : String) (ha : (auth == "") = false)
    (r : HttpResponse) (hok : r.ok = true)
    (hb : r.jsonBody.getField "balance" = some .null) :
    (check_balance (some auth) [.respond r]).1 = .text "Available balance: null" := by
  simp [check_balance, jsStrFalsy, ha, getClick2mailBasicAuthHeader,
    fetchAt, hok, hb, jsDisplay]

/-- C10 (witness): the null-balance case evaluated concretely. -/
theorem check_balance_null_reported_witness :
    (check_balance (some "c2mcred")
      [.respond { ok := true, status := 200,
                  jsonBody := .obj [("balance", .null)], textBody := "" }]).1 =
      .text "Available balance: null" :=
  check_balance_null_reported "c2mcred" rfl
    { ok := true, status := 200, jsonBody := .obj [("balance", .null)],
      textBody := "" } rfl rfl

/-- C7: on a successful response with no description field, job_status
returns the fixed non-empty not-found text. -/
theorem job_status_missing_description_fixed_text
    (auth : String) (ha : (auth == "") = false) (jobid : String)
    (r : HttpResponse) (hok : r.ok = true)
    (hd : r.jsonBody.getField "description" = none) :
    (job_status (some auth) jobid [.respond r]).1 =
      .text "Job description not found in response." ∧
    ("Job description not found in response." == "") = false := by
  constructor
  · simp [job_status, jsStrFalsy, ha, getClick2mailBasicAuthHeader,
      fetchAt, hok, hd, jsTruthy]
  · decide

/-- C7 (witness): a successful response whose body lacks description. -/
theorem job_status_missing_description_fixed_text_witness :
    (job_status (some "c2mcred") "J7"
      [.respond { ok := true, status := 200,
                  jsonBody := .obj [("status", .str "PRINTED")], textBody := "" }]).1 =
      .text "Job description not found in response." :=
  (job_status_missing_description_fixed_text "c2mcred" rfl "J7"
    { ok := true, status := 200, jsonBody := .obj [("status", .str "PRINTED")],
      textBody := "" } rfl rfl).1

/-- C2: whenever a successful response yields a structured validation
result, its is_valid flag is true exactly when both verdict flags are
present and strictly equal to false; a flag that is absent, null, or
true makes is_valid false. -/
theorem validate_address_is_valid_verdict
    (env : Env) (input : ValidateAddressInput) (r : HttpResponse)
    (hok : r.ok = true) (v : AddressValidationResult)
    (hres : (validate_address env input [.respond r]).1 = .jsonResult v) :
    v.is_valid = true ↔
      (optField (optField (r.jsonBody.getField "result") "verdict")
          "hasUnconfirmedComponents" = some (.bool false) ∧
       optField (optField (r.jsonBody.getField "result") "verdict")
          "hasInferredComponents" = some (.bool false)) := by
  by_cases hg : jsStrFalsy env.googleApiKey = true
  · simp [validate_address, hg] at hres
  · simp only [Bool.not_eq_true] at hg
    simp only [validate_address, hg, Bool.false_eq_true, if_false, fetchAt,
      List.getD_cons_zero, hok, if_true] at hres
    rcases hE : extractMessages
        (optField (r.jsonBody.getField "result") "validationMessages") with msg | msgs
    · rw [hE] at hres
      simp at hres
    · rw [hE] at hres
      simp only [ToolResult.jsonResult.injEq] at hres
      rw [← hres]
      simp only [Bool.and_eq_true, isFalseLit_iff]

/-- C2 (witness): a verdict with both flags false yields is_valid true. -/
theorem validate_address_is_valid_verdict_witness :
    ({ is_valid := true, corrected_address := Json.obj [],
       original_address := validationAddressJson sampleValidateInput,
       messages := [] } : AddressValidationResult).is_valid = true ↔
      (optField (optField ((Json.obj [("result", .obj [("verdict",
          .obj [("hasUnconfirmedComponents", .bool false),
                ("hasInferredComponents", .bool false)])])]).getField "result")
          "verdict") "hasUnconfirmedComponents" = some (.bool false) ∧
       optField (optField ((Json.obj [("result", .obj [("verdict",
          .obj [("hasUnconfirmedComponents", .bool false),
                ("hasInferredComponents", .bool false)])])]).getField "result")
          "verdict") "hasInferredComponents" = some (.bool false)) :=
  validate_address_is_valid_verdict envG sampleValidateInput
    { ok := true, status := 200,
      jsonBody := .obj [("result", .obj [("verdict",
        .obj [("hasUnconfirmedComponents", .bool false),
              ("hasInferredComponents", .bool false)])])],
      textBody := "" } rfl
    { is_valid := true, corrected_address := Json.obj [],
      original_address := validationAddressJson sampleValidateInput,
      messages := [] } rfl

/-- C3: when step 1 of send_letter fails — non-ok status, or ok with a
falsy extracted id — the only request ever issued is the document
upload, so steps 2 to 4 never execute, and the result is the single
descriptive text of the failing case. -/
theorem send_letter_step1_failure_aborts
    (auth : String) (ha : (auth == "") = false) (input : SendLetterToolInput)
    (r : HttpResponse) (rest : List FetchOutcome)
    (hfail : r.ok = false ∨ jsTruthy (r.jsonBody.getField "id") = false) :
    (send_letter (some auth) input (.respond r :: rest)).2 =
      [documentUploadRequest input] ∧
    (send_letter (some auth) input (.respond r :: rest)).1 =
      (if r.ok then .text "Failed to get document ID after upload response."
       else .text ("Error sending letter: Document upload failed: HTTP error! status: " ++
         toString r.status ++ ", body: " ++ r.textBody)) := by
  rcases hok : r.ok with _ | _
  · constructor <;>
      simp [send_letter, jsStrFalsy, ha, getClick2mailBasicAuthHeader,
        fetchAt, hok]
  · have hid : jsTruthy (r.jsonBody.getField "id") = false := by
      rcases hfail with h | h
      · rw [hok] at h; exact absurd h (by simp)
      · exact h
    constructor <;>
      simp [send_letter, jsStrFalsy, ha, getClick2mailBasicAuthHeader,
        fetchAt, hok, hid]

/-- C3 (witness): a step-1 response with status 500 aborts after one
request with the upload-failure text. -/
theorem send_letter_step1_failure_aborts_witness :
    (send_letter (some "c2mcred") sampleLetterInput
      [.respond { ok := false, status := 500, jsonBody := .null,
                  textBody := "oops" }]).2 = [documentUploadRequest sampleLetterInput] ∧
    (send_letter (some "c2mcred") sampleLetterInput
      [.respond { ok := false, status := 500, jsonBody := .null,
                  textBody := "oops" }]).1 =
      .text "Error sending letter: Document upload failed: HTTP error! status: 500, body: oops" := by
  have h := send_letter_step1_failure_aborts "c2mcred" rfl sampleLetterInput
    { ok := false, status := 500, jsonBody := .null, textBody := "oops" } []
    (Or.inl rfl)
  exact ⟨h.1, h.2.trans rfl⟩

/-- C4: when all four steps succeed, send_letter returns a confirmation
text built from the caller letter_type and the id extracted from the
step-3 job-creation response. -/
theorem send_letter_success_confirmation
    (auth : String) (ha : (auth == "") = false) (input : SendLetterToolInput)
    (r1 r2 r3 r4 : HttpResponse)
    (h1 : r1.ok = true) (d1 : jsTruthy (r1.jsonBody.getField "id") = true)
    (h2 : r2.ok = true) (d2 : jsTruthy (r2.jsonBody.getField "id") = true)
    (h3 : r3.ok = true) (d3 : jsTruthy (r3.jsonBody.getField "id") = true)
    (h4 : r4.ok = true) :
    (send_letter (some auth) input
      [.respond r1, .respond r2, .respond r3, .respond r4]).1 =
      .text ("Letter (" ++ input.letter_type ++ ") sent. Your job id is " ++
        jsDisplay (some (jsToVal (r3.jsonBody.getField "id")))) := by
  simp [send_letter, jsStrFalsy, ha, getClick2mailBasicAuthHeader,
    fetchAt, h1, d1, h2, d2, h3, d3, h4]

/-- C4 (witness): a fully successful pipeline run whose step-3 response
carries id C789 confirms with the letter type and that id. -/
theorem send_letter_success_confirmation_witness :
    (send_letter (some "c2mcred") sampleLetterInput
      [.respond (okIdResponse "A123"), .respond (okIdResponse "B456"),
       .respond (okIdResponse "C789"), .respond okPlainResponse]).1 =
      .text "Letter (Letter 8.5 x 11) sent. Your job id is C789" := by
  exact (send_letter_success_confirmation "c2mcred" rfl sampleLetterInput
    (okIdResponse "A123") (okIdResponse "B456") (okIdResponse "C789")
    okPlainResponse rfl rfl rfl rfl rfl rfl rfl).trans rfl

/-- C9: once step 1 succeeds, the step-2 request of send_letter carries
the address-list XML rendered from exactly one address block, whose
Firstname and Lastname are both the caller name, whose City is the
locality and whose State is the region code. -/
theorem send_letter_address_list_payload
    (auth : String) (ha : (auth == "") = false) (input : SendLetterToolInput)
    (r1 : HttpResponse) (h1 : r1.ok = true)
    (d1 : jsTruthy (r1.jsonBody.getField "id") = true) :
    (send_letter (some auth) input [.respond r1]).2 =
      [documentUploadRequest input,
       { url := molproBaseUrl ++ "addressLists", method := "POST",
         body := .xmlB (renderAddressList
           [{ firstname := input.name, lastname := input.name,
              address1 := input.address_lines, city := input.locality,
              state := input.region_code, postalcode := input.postal_code }]) }] := by
  simp [send_letter, jsStrFalsy, ha, getClick2mailBasicAuthHeader, fetchAt,
    h1, d1, addressListRequest, sendLetterAddressList]

/-- C9 (witness): the step-2 payload evaluated on a concrete input. -/
theorem send_letter_address_list_payload_witness :
    (send_letter (some "c2mcred") sampleLetterInput
      [.respond (okIdResponse "A123")]).2 =
      [documentUploadRequest sampleLetterInput,
       { url := molproBaseUrl ++ "addressLists", method := "POST",
         body := .xmlB (renderAddressList
           [{ firstname := "Ada", lastname := "Ada", address1 := "1 Main St",
              city := "Springfield", state := "US", postalcode := "12345" }]) }] :=
  (send_letter_address_list_payload "c2mcred" rfl sampleLetterInput
    (okIdResponse "A123") rfl rfl).trans rfl

/-- The network trace of a fully successful send_letter run. -/
def letterSuccessNet : List FetchOutcome :=
  [.respond (okIdResponse "A123"), .respond (okIdResponse "B456"),
   .respond (okIdResponse "C789"), .respond okPlainResponse]

/-- C8 (counterexample): the step-3 form payload of a concrete run is
not, even up to reordering, exactly the nine fields the claim lists —
it also carries documentClass, set from the caller letter_type. -/
theorem job_payload_not_exactly_claimed_fields :
    RequestBody.formOf
      (((send_letter (some "c2mcred") sampleLetterInput letterSuccessNet).2.getD
        2 dummyRequest).body) =
      some (jobFormFields sampleLetterInput (.str "A123") (.str "B456")) ∧
    ¬ (jobFormFields sampleLetterInput (.str "A123") (.str "B456")).Perm
        (specJobFields "A123" "B456") :=
  ⟨rfl, by decide⟩

/-- C8 (amended): the step-3 payload is form-encoded and consists of the
seven fixed policy constants, the document id from step 1 and the
address-list id from step 2, plus a documentClass field carrying the
caller letter_type — ten fields in all. -/
theorem job_payload_fields
    (auth : String) (ha : (auth == "") = false) (input : SendLetterToolInput)
    (r1 r2 : HttpResponse)
    (h1 : r1.ok = true) (d1 : jsTruthy (r1.jsonBody.getField "id") = true)
    (h2 : r2.ok = true) (d2 : jsTruthy (r2.jsonBody.getField "id") = true) :
    (send_letter (some auth) input [.respond r1, .respond r2]).2 =
      [documentUploadRequest input, addressListRequest input,
       jobRequest input (jsToVal (r1.jsonBody.getField "id"))
         (jsToVal (r2.jsonBody.getField "id"))] ∧
    ∀ docId listId : Json, jobFormFields input docId listId =
      ("documentClass", input.letter_type) ::
        specJobFields (jsDisplay (some docId)) (jsDisplay (some listId)) := by
  constructor
  · simp [send_letter, jsStrFalsy, ha, getClick2mailBasicAuthHeader, fetchAt,
      h1, d1, h2, d2]
  · intro docId listId
    rfl

/-- C8 (witness): the amended payload shape on a concrete run. -/
theorem job_payload_fields_witness :
    (send_letter (some "c2mcred") sampleLetterInput
      [.respond (okIdResponse "A123"), .respond (okIdResponse "B456")]).2 =
      [documentUploadRequest sampleLetterInput,
       addressListRequest sampleLetterInput,
       jobRequest sampleLetterInput (.str "A123") (.str "B456")] ∧
    jobFormFields sampleLetterInput (.str "A123") (.str "B456") =
      ("documentClass", "Letter 8.5 x 11") :: specJobFields "A123" "B456" := by
  have h := job_payload_fields "c2mcred" rfl sampleLetterInput
    (okIdResponse "A123") (okIdResponse "B456") rfl rfl rfl rfl
  exact ⟨h.1.trans rfl, (h.2 (.str "A123") (.str "B456")).trans rfl⟩

/-- C6 (counterexample): a successful response whose body does contain
postage_label.label_url, with the empty string as its value, is not
round-tripped — the truthiness test sends it to the not-found text. -/
theorem create_shipping_label_empty_url_not_roundtripped :
    optField ((Json.obj [("postage_label", .obj [("label_url", .str "")])]).getField
      "postage_label") "label_url" = some (.str "") ∧
    ToolResult.textOf (create_shipping_label envEp sampleShipInput
      [.respond { ok := true, status := 200,
                  jsonBody := .obj [("postage_label", .obj [("label_url", .str "")])],
                  textBody := "" }]).1 =
      some "Label URL not found in response." ∧
    ¬ ToolResult.textOf (create_shipping_label envEp sampleShipInput
      [.respond { ok := true, status := 200,
                  jsonBody := .obj [("postage_label", .obj [("label_url", .str "")])],
                  textBody := "" }]).1 = some "" :=
  ⟨rfl, rfl, by decide⟩

/-- C6 (amended): on a successful response, a non-empty label_url string
is returned verbatim as the text output, while an absent — or empty,
hence falsy — field yields the distinct not-found text. -/
theorem create_shipping_label_label_url
    (env : Env) (he : jsStrFalsy env.easypostApiKey = false)
    (input : ShippingLabelInput) (r : HttpResponse) (hok : r.ok = true) :
    (∀ u : String, (u == "") = false →
       optField (r.jsonBody.getField "postage_label") "label_url" = some (.str u) →
       (create_shipping_label env input [.respond r]).1 = .text u) ∧
    (optField (r.jsonBody.getField "postage_label") "label_url" = none →
       (create_shipping_label env input [.respond r]).1 =
         .text "Label URL not found in response.") ∧
    (optField (r.jsonBody.getField "postage_label") "label_url" = some (.str "") →
       (create_shipping_label env input [.respond r]).1 =
         .text "Label URL not found in response.") := by
  refine ⟨?_, ?_, ?_⟩
  · intro u hu hurl
    have hu2 : ¬ u = "" := by simpa using hu
    simp [create_shipping_label, getEasyPostAuthHeader, he, fetchAt, hok,
      hurl, jsTruthy, hu2, jsDisplay]
  · intro hurl
    simp [create_shipping_label, getEasyPostAuthHeader, he, fetchAt, hok,
      hurl, jsTruthy]
  · intro hurl
    simp [create_shipping_label, getEasyPostAuthHeader, he, fetchAt, hok,
      hurl, jsTruthy]

/-- C6 (witness): a concrete label URL is echoed exactly. -/
theorem create_shipping_label_label_url_witness :
    (create_shipping_label envEp sampleShipInput
      [.respond { ok := true, status := 200,
                  jsonBody := .obj [("postage_label",
                    .obj [("label_url", .str "https://x/y.pdf")])],
                  textBody := "" }]).1 = .text "https://x/y.pdf" :=
  (create_shipping_label_label_url envEp rfl sampleShipInput
    { ok := true, status := 200,
      jsonBody := .obj [("postage_label", .obj [("label_url", .str "https://x/y.pdf")])],
      textBody := "" } rfl).1 "https://x/y.pdf" rfl rfl
